import Mathlib

/-!
Shallow embedding of the Printomat server core (job admission, durable
priority queue, printer delivery session) and proofs checking the
specification's claims against it.

The embedding follows `src/server/app.py` (the current server package) and,
where a claim also cites it, the legacy flat layout in `src/main.py`.
Machine times (`datetime.utcnow()`, `time.time()`) are modelled as integer
numbers of seconds; the float division of the rate-limit arithmetic is
modelled exactly over `ℚ`. The database session is modelled as an explicit
list of rows threaded through each operation.
-/

namespace Printomat

/-- A row of the `print_requests` table (`src/server/models.py`). -/
structure PrintRequest where
  id : Nat
  type : String
  message_content : Option String
  image_content : Option String
  submitter_ip : String
  is_priority : Bool
  friendship_token_name : Option String
  status : String
  created_at : Int
  printed_at : Option Int
  error_message : Option String
deriving DecidableEq

/-- One entry of the `friendship_tokens` table of `config.toml`
(`src/server/config.py`, `get_friendship_tokens`). -/
structure TokenData where
  token : String
  label : Option String
  name : Option String
  message : Option String
deriving DecidableEq

/-- The configuration values the admission and delivery code reads
(`src/server/config.py`). -/
structure ServerConfig where
  friendship_tokens : List TokenData
  printer_auth_token : String
  queue_max_size : Nat
  send_interval_seconds : Int
  user_cooldown_hours : Int
deriving DecidableEq

/-- Python truthiness of an optional string (`if message:` treats both
`None` and the empty string as absent). -/
def truthy : Option String → Bool
  | none => false
  | some s => !(s == "")

/-- `config.get_friendship_token_by_value`: first configured token whose
`token` field equals the given value. -/
def get_friendship_token_by_value (tokens : List TokenData) (v : String) :
    Option TokenData :=
  tokens.find? (fun t => t.token == v)

/-- The SQL ordering key `ORDER BY is_priority DESC, created_at ASC` used by
both the delivery query and `get_queue_position` (`src/server/app.py`). -/
def keyLE (a b : PrintRequest) : Bool :=
  if a.is_priority == b.is_priority then decide (a.created_at ≤ b.created_at)
  else a.is_priority

/-- Propositional form of `keyLE`. -/
def keyLEp (a b : PrintRequest) : Prop := keyLE a b = true

instance : DecidableRel keyLEp := fun a b =>
  inferInstanceAs (Decidable (keyLE a b = true))

instance : IsTotal PrintRequest keyLEp := by
  constructor
  intro a b
  unfold keyLEp keyLE
  cases ha : a.is_priority <;> cases hb : b.is_priority <;> simp
  · exact le_total a.created_at b.created_at
  · exact le_total a.created_at b.created_at

instance : IsTrans PrintRequest keyLEp := by
  constructor
  intro a b c hab hbc
  unfold keyLEp keyLE at hab hbc ⊢
  cases ha : a.is_priority <;> cases hb : b.is_priority <;>
    cases hc : c.is_priority <;>
    simp only [ha, hb, hc] at hab hbc ⊢ <;> simp at hab hbc ⊢ <;>
    try exact le_trans hab hbc

/-- The queue view: rows with `status = "queued"` in delivery order
(the `filter(status == "queued").order_by(is_priority.desc(),
created_at.asc())` query of `src/server/app.py`). -/
def queueView (jobs : List PrintRequest) : List PrintRequest :=
  List.insertionSort keyLEp (jobs.filter (fun j => j.status == "queued"))

/-- `.first()` of the delivery query: the head of the queue view. -/
def selectNext (jobs : List PrintRequest) : Option PrintRequest :=
  (queueView jobs).head?

/-- The `for idx, req in enumerate(...)` scan of `get_queue_position`. -/
def indexOfId : List PrintRequest → Nat → Nat → Int
  | [], _, _ => -1
  | j :: rest, rid, idx =>
      if j.id = rid then (idx : Int) else indexOfId rest rid (idx + 1)

/-- `get_queue_position(request_id, session)` from `src/server/app.py`:
position of the row in the ordered queue view, `-1` when absent. -/
def get_queue_position (rid : Nat) (jobs : List PrintRequest) : Int :=
  indexOfId (queueView jobs) rid 0

/-- An UPDATE of the row(s) with the given primary key. -/
def updateJob (jobs : List PrintRequest) (rid : Nat)
    (f : PrintRequest → PrintRequest) : List PrintRequest :=
  jobs.map (fun j => if j.id = rid then f j else j)

/-- `count()` of rows with status in {queued, printing}
(the capacity check of `_process_submit_request`). -/
def countActive (jobs : List PrintRequest) : Nat :=
  (jobs.filter (fun j => j.status == "queued" || j.status == "printing")).length

/-- Content-type dispatch of `_process_submit_request`:
both payloads → mixed, image only → image, otherwise text. -/
def contentType (message image : Option String) : String :=
  if truthy message && truthy image then "mixed"
  else if truthy image then "image"
  else "text"

/-- One step of the `.order_by(created_at.desc()).first()` selection:
keep whichever row has the greater `created_at` (the earlier row wins
ties). -/
def laterOf (a : Option PrintRequest) (j : PrintRequest) : Option PrintRequest :=
  match a with
  | none => some j
  | some b => if b.created_at < j.created_at then some j else some b

/-- The `.order_by(created_at.desc()).first()` selection: fold keeping the
row with the greatest `created_at`. -/
def pickLatest (acc : Option PrintRequest) (l : List PrintRequest) :
    Option PrintRequest :=
  l.foldl laterOf acc

/-- The filter of `check_rate_limit`: rows of this IP newer than the
cooldown cutoff. -/
def rateLimitCandidates (ip : String) (cutoff : Int) (jobs : List PrintRequest) :
    List PrintRequest :=
  jobs.filter (fun j => j.submitter_ip == ip && decide (cutoff < j.created_at))

/-- `check_rate_limit(ip, session)` from `src/server/app.py`: returns
`(is_allowed, minutes_until_retry)`; the minutes value is
`int(retry_after_seconds / 60) + 1` (truncating division). -/
def check_rate_limit (cooldown_hours : Int) (ip : String) (now : Int)
    (jobs : List PrintRequest) : Bool × Option Int :=
  let cutoff : Int := now - cooldown_hours * 3600
  match pickLatest none (rateLimitCandidates ip cutoff jobs) with
  | none => (true, none)
  | some last =>
      let time_since : Int := now - last.created_at
      let cooldown_seconds : Int := cooldown_hours * 3600
      let retry_after_seconds : Int := cooldown_seconds - time_since
      if 0 < retry_after_seconds then
        (false, some (⌊(retry_after_seconds : ℚ) / 60⌋ + 1))
      else (true, none)

/-- Outcome of `_process_submit_request`. -/
inductive SubmitResult where
  | rejected (error : String) (message : String)
  | accepted (status : String) (position : Int) (estimated_wait : Int)
      (ackMessage : Option String)
deriving DecidableEq

/-- The row the accept path would insert (the `PrintRequest(...)`
constructor call of `src/server/app.py` lines 281-290, restricted to the
columns `src/server/models.py` maps). That call also passes a
`friendship_token_label` keyword the model does not map, so in the staged
source the constructor always raises — see `constructorRaises`. -/
def newPrintRequest (message image : Option String) (client_ip : String)
    (token_data : Option TokenData) (now : Int) (new_id : Nat) : PrintRequest :=
  { id := new_id
    type := contentType message image
    message_content := message
    image_content := image
    submitter_ip := client_ip
    is_priority := token_data.isSome
    friendship_token_name := token_data.bind TokenData.name
    status := "queued"
    created_at := now
    printed_at := none
    error_message := none }

/-- `_process_submit_request(message, image, token, ...)` from
`src/server/app.py`, as a function of the current job table; `insertOk`
models whether the `PrintRequest(...)` constructor and commit succeed. In
the staged source the constructor always raises (`constructorRaises`), so
the staged endpoint is this function at `insertOk = false`; `insertOk =
true` describes the accept path the surrounding code is written for.
Returns the response and the new job table. -/
def processSubmit (cfg : ServerConfig) (message image token : Option String)
    (client_ip : String) (now : Int) (new_id : Nat) (insertOk : Bool)
    (jobs : List PrintRequest) : SubmitResult × List PrintRequest :=
  if !(truthy message) && !(truthy image) then
    (.rejected "invalid_request" "At least message or image must be provided",
     jobs)
  else
    let token_data : Option TokenData :=
      if truthy token then
        get_friendship_token_by_value cfg.friendship_tokens (token.getD "")
      else none
    if truthy token && token_data.isNone then
      (.rejected "invalid_token" "Invalid friendship token", jobs)
    else
      let rl := check_rate_limit cfg.user_cooldown_hours client_ip now jobs
      if token_data.isNone && !rl.fst then
        (.rejected "rate_limited"
          ("Try again in " ++ toString (rl.snd.getD 0) ++ " minutes"), jobs)
      else if token_data.isNone && cfg.queue_max_size ≤ countActive jobs then
        (.rejected "queue_full" "Queue is currently full, try again later",
         jobs)
      else if !insertOk then
        (.rejected "database_error"
          "Failed to process request. Please try again later.", jobs)
      else
        let req := newPrintRequest message image client_ip token_data now new_id
        let jobs' := jobs ++ [req]
        let position := get_queue_position new_id jobs'
        let estimated_wait := position * 1
        if token_data.isSome then
          (.accepted "printing_immediately" position estimated_wait
            (some (((token_data.map TokenData.message).join).getD
              "Thanks for the message!")), jobs')
        else
          (.accepted "queued" position estimated_wait none, jobs')

/-- Payload of a printer acknowledgment message
(`{"status": ..., "error_message": ...}`); a `none` field models an absent
JSON key. -/
structure AckData where
  status : Option String
  error_message : Option String
deriving DecidableEq

/-- In-memory state of one `websocket_printer_endpoint` session in
`src/server/app.py`, together with the job table it reads and writes. -/
structure LoopState where
  jobs : List PrintRequest
  last_send_time : Int
  currently_printing_id : Option Nat
  printer_connected : Bool
deriving DecidableEq

/-- Connection establishment of `src/server/app.py`
(`websocket_printer_endpoint`, auth check then `printer_connected = True`).
Returns `(accepted, new printer_connected flag)`. The handler rejects when
the query token is absent, empty (Python falsiness), or different from the
configured token; it never consults the connected flag. -/
def appConnect (expected : String) (auth : Option String) (flag : Bool) :
    Bool × Bool :=
  match auth with
  | none => (false, flag)
  | some t => if t == "" || !(t == expected) then (false, flag) else (true, true)

/-- The persisted `printer_status` singleton row of `src/models.py`. -/
structure PrinterStatusRow where
  is_connected : Bool
  connected_at : Option Int
deriving DecidableEq

/-- Connection establishment of the legacy endpoint in `src/main.py`:
after the token check it refuses when the persisted status row says a
printer is already connected, otherwise marks it connected. Returns
`(accepted, new printer_status row)`. -/
def mainConnect (expected : String) (auth : Option String)
    (ps : Option PrinterStatusRow) (now : Int) : Bool × Option PrinterStatusRow :=
  match auth with
  | none => (false, ps)
  | some t =>
      if t == "" || !(t == expected) then (false, ps)
      else
        match ps with
        | some row =>
            if row.is_connected then (false, some row)
            else (true, some { is_connected := true, connected_at := some now })
        | none => (true, some { is_connected := true, connected_at := some now })

/-- The send half of one delivery-loop iteration of
`websocket_printer_endpoint` (`src/server/app.py`): pick the next queued
row, decide eligibility (priority bypasses the interval), flip it to
`printing` and transmit. `sendOk` models whether `websocket.send_json`
raises a non-fatal exception; `errStr` is that exception's text. -/
def sendPhase (send_interval current_time : Int) (sendOk : Bool) (errStr : String)
    (st : LoopState) : LoopState :=
  let time_since_last_send := current_time - st.last_send_time
  match selectNext st.jobs with
  | none => st
  | some m =>
      let should_send := m.is_priority || decide (send_interval ≤ time_since_last_send)
      if should_send then
        let jobs1 := updateJob st.jobs m.id (fun j => { j with status := "printing" })
        if sendOk then
          { st with
              jobs := jobs1
              currently_printing_id := some m.id
              last_send_time := current_time }
        else
          { st with
              jobs := updateJob jobs1 m.id (fun j =>
                { j with
                    status := "failed"
                    error_message :=
                      some ("Server error sending to printer: " ++ errStr) }) }
      else st

/-- The acknowledgment half of one delivery-loop iteration of
`websocket_printer_endpoint` (`src/server/app.py`), given a parsed
acknowledgment: update the in-flight row (success → printed, anything
else → failed with the supplied or default reason) and clear the in-flight
id; an acknowledgment with no in-flight id is discarded. -/
def ackPhase (now : Int) (ack : AckData) (st : LoopState) : LoopState :=
  match st.currently_printing_id with
  | none => st
  | some cid =>
      match st.jobs.find? (fun j => j.id == cid) with
      | some _ =>
          let f : PrintRequest → PrintRequest := fun j =>
            if ack.status == some "success" then
              { j with status := "printed", printed_at := some now }
            else
              { j with
                  status := "failed"
                  printed_at := some now
                  error_message := some (ack.error_message.getD "Unknown error") }
          { st with jobs := updateJob st.jobs cid f, currently_printing_id := none }
      | none => { st with currently_printing_id := none }

/-- The disconnect handlers of `websocket_printer_endpoint`
(`src/server/app.py`): both the clean-close and the error handler only
clear the global connected flag. -/
def handleDisconnect (st : LoopState) : LoopState :=
  { st with printer_connected := false }

/-- Session-local state set up right after a successful handshake
(`src/server/app.py` lines 444-446). -/
def appSessionInit (jobs : List PrintRequest) (now : Int) : LoopState :=
  { jobs := jobs
    last_send_time := now
    currently_printing_id := none
    printer_connected := true }

/-- Marking a delivered row printed (the net effect of a full successful
send/acknowledge round trip on that row). -/
def markPrinted (jobs : List PrintRequest) (rid : Nat) : List PrintRequest :=
  updateJob jobs rid (fun j => { j with status := "printed" })

/-- Successive delivery candidates: repeatedly take the delivery query's
choice and complete its round trip. -/
def deliverySequence : Nat → List PrintRequest → List Nat
  | 0, _ => []
  | n + 1, jobs =>
      match selectNext jobs with
      | none => []
      | some j => j.id :: deliverySequence n (markPrinted jobs j.id)

/-- A concrete job row used in scenario checks. -/
def mkJob (i : Nat) (pri : Bool) (t : Int) (st : String) : PrintRequest :=
  { id := i
    type := "text"
    message_content := some "hello"
    image_content := none
    submitter_ip := "203.0.113.7"
    is_priority := pri
    friendship_token_name := none
    status := st
    created_at := t
    printed_at := none
    error_message := none }

/-! ### Shared lemmas about the queue view and row updates -/

theorem keyLE_refl (a : PrintRequest) : keyLEp a a := by
  simp [keyLEp, keyLE]

theorem mem_queueView {jobs : List PrintRequest} {k : PrintRequest} :
    k ∈ queueView jobs ↔ k ∈ jobs ∧ k.status = "queued" := by
  unfold queueView
  rw [(List.perm_insertionSort keyLEp _).mem_iff, List.mem_filter]
  simp

theorem queueView_sorted (jobs : List PrintRequest) :
    List.Sorted keyLEp (queueView jobs) :=
  List.sorted_insertionSort keyLEp _

/-- The delivery query's choice is a queued row that is minimal for the
ordering key among all queued rows. -/
theorem selectNext_spec {jobs : List PrintRequest} {j : PrintRequest}
    (h : selectNext jobs = some j) :
    j ∈ jobs ∧ j.status = "queued" ∧
      ∀ k ∈ jobs, k.status = "queued" → keyLEp j k := by
  unfold selectNext at h
  cases hq : queueView jobs with
  | nil => rw [hq] at h; simp at h
  | cons a t =>
      rw [hq] at h
      simp only [List.head?_cons, Option.some.injEq] at h
      subst h
      have hsorted : List.Sorted keyLEp (queueView jobs) := queueView_sorted jobs
      rw [hq] at hsorted
      have hmem : a ∈ queueView jobs := by rw [hq]; exact List.mem_cons_self _ _
      obtain ⟨hj, hst⟩ := mem_queueView.mp hmem
      refine ⟨hj, hst, ?_⟩
      intro k hk hkst
      have hkq : k ∈ queueView jobs := mem_queueView.mpr ⟨hk, hkst⟩
      rw [hq] at hkq
      rcases List.mem_cons.mp hkq with h | h
      · subst h; exact keyLE_refl k
      · exact List.rel_of_sorted_cons hsorted k h

/-- Looking a row up by id after an UPDATE by that id yields the updated
row, provided the update preserves the id. -/
theorem find?_updateJob (jobs : List PrintRequest) (rid : Nat)
    (f : PrintRequest → PrintRequest) (hf : ∀ x, (f x).id = x.id) :
    (updateJob jobs rid f).find? (fun j => j.id == rid) =
      (jobs.find? (fun j => j.id == rid)).map f := by
  induction jobs with
  | nil => rfl
  | cons a l ih =>
      unfold updateJob at ih ⊢
      simp only [List.map_cons]
      by_cases ha : a.id = rid
      · rw [if_pos ha]
        rw [List.find?_cons_of_pos _ (by simp [hf, ha]),
          List.find?_cons_of_pos _ (by simp [ha])]
        rfl
      · rw [if_neg ha]
        rw [List.find?_cons_of_neg _ (by simp [ha]),
          List.find?_cons_of_neg _ (by simp [ha])]
        exact ih

theorem laterOf_some (b j : PrintRequest) :
    laterOf (some b) j =
      if b.created_at < j.created_at then some j else some b := rfl

theorem pickLatest_some_spec (l : List PrintRequest) :
    ∀ a : PrintRequest,
      ∃ r, pickLatest (some a) l = some r ∧ (r = a ∨ r ∈ l) := by
  induction l with
  | nil => intro a; exact ⟨a, rfl, Or.inl rfl⟩
  | cons b l ih =>
      intro a
      unfold pickLatest at ih ⊢
      simp only [List.foldl_cons, laterOf_some]
      by_cases hab : a.created_at < b.created_at
      · rw [if_pos hab]
        obtain ⟨r, hr, hc⟩ := ih b
        refine ⟨r, hr, ?_⟩
        rcases hc with h | h
        · exact Or.inr (h ▸ List.mem_cons_self _ _)
        · exact Or.inr (List.mem_cons_of_mem _ h)
      · rw [if_neg hab]
        obtain ⟨r, hr, hc⟩ := ih a
        refine ⟨r, hr, ?_⟩
        rcases hc with h | h
        · exact Or.inl h
        · exact Or.inr (List.mem_cons_of_mem _ h)

/-- A nonempty candidate list always yields a most-recent row, and that
row is one of the candidates. -/
theorem pickLatest_of_mem {l : List PrintRequest} {x : PrintRequest}
    (hx : x ∈ l) : ∃ r, pickLatest none l = some r ∧ r ∈ l := by
  cases l with
  | nil => cases hx
  | cons b l =>
      have : pickLatest none (b :: l) = pickLatest (some b) l := rfl
      rw [this]
      obtain ⟨r, hr, hc⟩ := pickLatest_some_spec l b
      refine ⟨r, hr, ?_⟩
      rcases hc with h | h
      · exact h ▸ List.mem_cons_self _ _
      · exact List.mem_cons_of_mem _ h

/-! ### Concrete states used in scenario checks -/

/-- Three anonymous jobs at times 1,2,3, then a priority job at time 4. -/
def c2store : List PrintRequest :=
  [mkJob 1 false 1 "queued", mkJob 2 false 2 "queued",
   mkJob 3 false 3 "queued", mkJob 4 true 4 "queued"]

/-- A session holding a queued priority job and a queued anonymous job,
with the send-interval clock last reset at time 0. -/
def c3state : LoopState :=
  { jobs := [mkJob 11 true 50 "queued", mkJob 12 false 5 "queued"]
    last_send_time := 0
    currently_printing_id := none
    printer_connected := true }

/-- A session with one in-flight (printing) job awaiting acknowledgment. -/
def c5state : LoopState :=
  { jobs := [mkJob 21 false 7 "printing"]
    last_send_time := 0
    currently_printing_id := some 21
    printer_connected := true }

/-- A session interrupted while job 31 is in flight. -/
def c9state : LoopState :=
  { jobs := [mkJob 31 false 2 "printing"]
    last_send_time := 0
    currently_printing_id := some 31
    printer_connected := true }

/-! ### Claim theorems -/

/-- C1, counterexample: with the global connected flag already true, a
second connection attempt presenting the correct printer token is accepted
by `websocket_printer_endpoint` in `src/server/app.py`, not refused. -/
theorem claim_C1_counterexample :
    appConnect "ptok" (some "ptok") true = (true, true) ∧
      (appConnect "ptok" (some "ptok") true).fst ≠ false := by
  constructor
  · rfl
  · simp [appConnect]

/-- C1, amended: only the legacy endpoint of `src/main.py` enforces the
connection singleton — while the persisted printer-status row says
connected, any further attempt (correct token included) is refused and the
row is unchanged; the endpoint of `src/server/app.py` checks only the
token, so a non-empty correct token is accepted even while the connected
flag is true. -/
theorem claim_C1 (expected t : String) (row : PrinterStatusRow) (now : Int)
    (flag : Bool) (hrow : row.is_connected = true) :
    mainConnect expected (some t) (some row) now = (false, some row) ∧
      (t ≠ "" → t = expected → appConnect expected (some t) flag = (true, true)) := by
  constructor
  · show (if t == "" || !(t == expected) then ((false : Bool), (some row : Option PrinterStatusRow))
        else
          if row.is_connected then (false, some row)
          else (true, some { is_connected := true, connected_at := some now })) =
      (false, some row)
    rw [hrow]
    simp
  · intro hne heq
    subst heq
    show (if t == "" || !(t == t) then ((false : Bool), flag) else (true, true)) = (true, true)
    rw [if_neg]
    simp [hne]

/-- C1 witness: a concrete second-connection attempt with the correct
token: the legacy endpoint refuses it while the current endpoint accepts
it. -/
theorem claim_C1_witness :
    mainConnect "ptok" (some "ptok") (some ⟨true, some 5⟩) 10 =
        (false, some ⟨true, some 5⟩) ∧
      appConnect "ptok" (some "ptok") true = (true, true) := by
  have h := claim_C1 "ptok" "ptok" ⟨true, some 5⟩ 10 true rfl
  exact ⟨h.1, h.2 (by decide) rfl⟩

/-- C2: the delivery query returns a queued job minimal for
(priority DESC, created_at ASC) — every queued priority job precedes every
queued non-priority one and within a class created_at ascends — and the
scenario J1,J2,J3 anonymous then J4 priority is delivered as J4,J1,J2,J3. -/
theorem claim_C2 :
    (∀ (jobs : List PrintRequest) (j : PrintRequest),
        selectNext jobs = some j →
          j ∈ jobs ∧ j.status = "queued" ∧
            ∀ k ∈ jobs, k.status = "queued" →
              (k.is_priority = true → j.is_priority = true) ∧
              (k.is_priority = j.is_priority → j.created_at ≤ k.created_at)) ∧
      deliverySequence 4 c2store = [4, 1, 2, 3] := by
  constructor
  · intro jobs j h
    obtain ⟨hj, hst, hmin⟩ := selectNext_spec h
    refine ⟨hj, hst, ?_⟩
    intro k hk hkst
    have hle := hmin k hk hkst
    unfold keyLEp keyLE at hle
    constructor
    · intro hkp
      cases hjp : j.is_priority
      · rw [hkp, hjp] at hle; simp at hle
      · rfl
    · intro heq
      rw [heq] at hle
      simp at hle
      exact hle
  · decide

/-- C2 witness: in the four-job scenario store the query selects J4, which
is indeed a member with status queued. -/
theorem claim_C2_witness :
    (mkJob 4 true 4 "queued") ∈ c2store ∧
      (mkJob 4 true 4 "queued").status = "queued" := by
  have h := claim_C2.1 c2store (mkJob 4 true 4 "queued") (by decide)
  exact ⟨h.1, h.2.1⟩

/-- C3, counterexample: in `src/server/app.py` the delivery loop sets
`last_send_time = current_time` after every successful send, priority
included — after the priority send at time 100 the clock reads 100 (not its
prior value 0), and the anonymous job that was interval-eligible at time
100 is no longer sent at time 130. -/
theorem claim_C3_counterexample :
    c3state.last_send_time = 0 ∧
      (60 ≤ 100 - c3state.last_send_time) ∧
      (selectNext c3state.jobs).map PrintRequest.is_priority = some true ∧
      (sendPhase 60 100 true "" c3state).last_send_time = 100 ∧
      (sendPhase 60 130 true ""
          (ackPhase 101 ⟨some "success", none⟩
            (sendPhase 60 100 true "" c3state))).jobs.find?
          (fun j => j.id == 12) = some (mkJob 12 false 5 "queued") := by
  refine ⟨rfl, by decide, by decide, by decide, by decide⟩

/-- C3, amended: the send-interval clock is reset by every successful
transmission, priority sends included: whenever the loop sends the selected
job (because it is priority, or because the interval has elapsed), the
recorded last-send time becomes the current time. -/
theorem claim_C3 (st : LoopState) (interval now : Int) (errStr : String)
    (m : PrintRequest) (hsel : selectNext st.jobs = some m)
    (helig : m.is_priority = true ∨ interval ≤ now - st.last_send_time) :
    (sendPhase interval now true errStr st).last_send_time = now := by
  have hss : (m.is_priority || decide (interval ≤ now - st.last_send_time)) = true := by
    rcases helig with h | h
    · simp [h]
    · simp [h]
  simp [sendPhase, hsel, hss]

/-- C3 witness: the amended reset law at the concrete priority send of the
counterexample state. -/
theorem claim_C3_witness :
    (sendPhase 60 100 true "" c3state).last_send_time = 100 :=
  claim_C3 c3state 60 100 "" (mkJob 11 true 50 "queued") (by decide)
    (Or.inl rfl)

/-- C5: acknowledging an in-flight job as success leaves it printed with
`printed_at` set and no error detail; acknowledging it as anything else
leaves it failed with `printed_at` set and the supplied reason as error
detail, defaulting to "Unknown error" when the reason is omitted. -/
theorem claim_C5 (st : LoopState) (now : Int) (ack : AckData) (cid : Nat)
    (j : PrintRequest) (hcur : st.currently_printing_id = some cid)
    (hfind : st.jobs.find? (fun x => x.id == cid) = some j)
    (herr : j.error_message = none) :
    (ackPhase now ack st).currently_printing_id = none ∧
      (ack.status = some "success" →
        ∃ j', (ackPhase now ack st).jobs.find? (fun x => x.id == cid) = some j' ∧
          j'.status = "printed" ∧ j'.printed_at = some now ∧
          j'.error_message = none) ∧
      (ack.status ≠ some "success" →
        ∃ j', (ackPhase now ack st).jobs.find? (fun x => x.id == cid) = some j' ∧
          j'.status = "failed" ∧ j'.printed_at = some now ∧
          (∀ r, ack.error_message = some r → j'.error_message = some r) ∧
          (ack.error_message = none → j'.error_message = some "Unknown error")) := by
  have hupd := find?_updateJob st.jobs cid
    (fun x =>
      if ack.status == some "success" then
        { x with status := "printed", printed_at := some now }
      else
        { x with
            status := "failed"
            printed_at := some now
            error_message := some (ack.error_message.getD "Unknown error") })
    (by intro x; by_cases h : ack.status == some "success" <;> simp [h])
  rw [hfind] at hupd
  have hmain : (ackPhase now ack st).jobs.find? (fun x => x.id == cid) =
      some (if ack.status == some "success" then
        { j with status := "printed", printed_at := some now }
      else
        { j with
            status := "failed"
            printed_at := some now
            error_message := some (ack.error_message.getD "Unknown error") }) := by
    simp only [ackPhase, hcur, hfind]
    rw [hupd]
    rfl
  refine ⟨by simp [ackPhase, hcur, hfind], ?_, ?_⟩
  · intro hs
    exact ⟨_, hmain, by simp [hs], by simp [hs], by simp [hs, herr]⟩
  · intro hs
    have hsb : (ack.status == some "success") = false := by
      simp [hs]
    exact ⟨_, hmain, by simp [hsb], by simp [hsb],
      fun r hr => by simp [hsb, hr], fun hr => by simp [hsb, hr]⟩

/-- C5 witness: a concrete success acknowledgment for in-flight job 21
clears the in-flight id. -/
theorem claim_C5_witness :
    (ackPhase 101 ⟨some "success", none⟩ c5state).currently_printing_id = none :=
  (claim_C5 c5state 101 ⟨some "success", none⟩ 21 (mkJob 21 false 7 "printing")
    rfl (by decide) rfl).1

/-- C6, counterexample: when transmitting the selected job throws, the
loop in `src/server/app.py` marks it failed with the synthetic server-side
error detail but does not set `printed_at` (the claim says every
transition into failed sets it). -/
theorem claim_C6_counterexample :
    (sendPhase 60 100 false "boom" c3state).jobs.find? (fun x => x.id == 11) =
        some { (mkJob 11 true 50 "queued") with
               status := "failed"
               error_message := some "Server error sending to printer: boom" } ∧
      ((sendPhase 60 100 false "boom" c3state).jobs.find?
          (fun x => x.id == 11)).map PrintRequest.printed_at = some none := by
  exact ⟨by decide, by decide⟩

/-- C6, amended: acknowledgment-driven transitions into printed or failed
set `printed_at`, but the send-failure transition into failed sets only the
status and the synthetic error detail, leaving `printed_at` unchanged
(hence unset for a job coming from the queue). -/
theorem claim_C6 (st : LoopState) (interval now : Int) (errStr : String)
    (m : PrintRequest) (hsel : selectNext st.jobs = some m)
    (hfind : st.jobs.find? (fun x => x.id == m.id) = some m)
    (helig : m.is_priority = true ∨ interval ≤ now - st.last_send_time) :
    (∃ j', (sendPhase interval now false errStr st).jobs.find?
          (fun x => x.id == m.id) = some j' ∧
        j'.status = "failed" ∧
        j'.error_message = some ("Server error sending to printer: " ++ errStr) ∧
        j'.printed_at = m.printed_at) ∧
      (∀ (st₂ : LoopState) (now₂ : Int) (ack : AckData) (cid : Nat)
          (j₂ : PrintRequest), st₂.currently_printing_id = some cid →
          st₂.jobs.find? (fun x => x.id == cid) = some j₂ →
          ∃ j', (ackPhase now₂ ack st₂).jobs.find? (fun x => x.id == cid) = some j' ∧
            j'.printed_at = some now₂ ∧
            (j'.status = "printed" ∨ j'.status = "failed")) := by
  constructor
  · have hss : (m.is_priority || decide (interval ≤ now - st.last_send_time)) = true := by
      rcases helig with h | h
      · simp [h]
      · simp [h]
    have hstate : sendPhase interval now false errStr st =
        { st with jobs := (updateJob
            (updateJob st.jobs m.id (fun j => { j with status := "printing" }))
            m.id (fun j => { j with
                status := "failed"
                error_message := some ("Server error sending to printer: " ++ errStr) })) } := by
      unfold sendPhase
      rw [hsel]
      simp [hss]
    have h1 := find?_updateJob st.jobs m.id
      (fun j => { j with status := "printing" }) (by intro x; rfl)
    rw [hfind] at h1
    have h2 := find?_updateJob (updateJob st.jobs m.id (fun j => { j with status := "printing" }))
      m.id
      (fun j => { j with
          status := "failed"
          error_message := some ("Server error sending to printer: " ++ errStr) })
      (by intro x; rfl)
    rw [h1] at h2
    have hmain : (sendPhase interval now false errStr st).jobs.find?
        (fun x => x.id == m.id) =
        some { m with
               status := "failed"
               error_message := some ("Server error sending to printer: " ++ errStr) } := by
      rw [hstate]
      dsimp only
      rw [h2]
      rfl
    exact ⟨_, hmain, rfl, rfl, rfl⟩
  · intro st₂ now₂ ack cid j₂ hcur hfind₂
    have hupd := find?_updateJob st₂.jobs cid
      (fun x =>
        if ack.status == some "success" then
          { x with status := "printed", printed_at := some now₂ }
        else
          { x with
              status := "failed"
              printed_at := some now₂
              error_message := some (ack.error_message.getD "Unknown error") })
      (by intro x; by_cases h : ack.status == some "success" <;> simp [h])
    rw [hfind₂] at hupd
    have hmain : (ackPhase now₂ ack st₂).jobs.find? (fun x => x.id == cid) =
        some (if ack.status == some "success" then
          { j₂ with status := "printed", printed_at := some now₂ }
        else
          { j₂ with
              status := "failed"
              printed_at := some now₂
              error_message := some (ack.error_message.getD "Unknown error") }) := by
      simp only [ackPhase, hcur, hfind₂]
      rw [hupd]
      rfl
    refine ⟨_, hmain, ?_, ?_⟩
    · by_cases h : ack.status == some "success" <;> simp [h]
    · by_cases h : ack.status == some "success" <;> simp [h]

/-- C6 witness: the failed transmission of priority job 11 at time 100
leaves a row found by id. -/
theorem claim_C6_witness :
    ((sendPhase 60 100 false "boom" c3state).jobs.find?
        (fun x => x.id == (mkJob 11 true 50 "queued").id)).isSome = true := by
  obtain ⟨j', hj', _⟩ := (claim_C6 c3state 60 100 "boom" (mkJob 11 true 50 "queued")
    (by decide) (by decide) (Or.inl rfl)).1
  rw [hj']
  rfl

/-- C9: ending the printer session only clears the connected flag — the
job table (including any job stuck at printing) and the rest of the state
are untouched, and neither the remaining delivery view nor a fresh session
(which starts with no in-flight job) ever selects a printing job again. -/
theorem claim_C9 (st : LoopState) (now : Int) (j : PrintRequest)
    (hj : j.status = "printing") :
    (handleDisconnect st).jobs = st.jobs ∧
      (handleDisconnect st).printer_connected = false ∧
      (handleDisconnect st).last_send_time = st.last_send_time ∧
      (handleDisconnect st).currently_printing_id = st.currently_printing_id ∧
      (∀ k, selectNext (handleDisconnect st).jobs = some k → k.status = "queued") ∧
      selectNext (handleDisconnect st).jobs ≠ some j ∧
      (appSessionInit (handleDisconnect st).jobs now).currently_printing_id = none ∧
      selectNext (appSessionInit (handleDisconnect st).jobs now).jobs ≠ some j := by
  refine ⟨rfl, rfl, rfl, rfl, ?_, ?_, rfl, ?_⟩
  · intro k hk
    exact (selectNext_spec hk).2.1
  · intro hcontra
    have hq := (selectNext_spec hcontra).2.1
    rw [hj] at hq
    simp at hq
  · intro hcontra
    have hq := (selectNext_spec hcontra).2.1
    rw [hj] at hq
    simp at hq

/-- C9 witness: disconnecting while job 31 is printing leaves the table
unchanged, clears the flag, and job 31 is never selected again. -/
theorem claim_C9_witness :
    (handleDisconnect c9state).jobs = c9state.jobs ∧
      (handleDisconnect c9state).printer_connected = false ∧
      selectNext (handleDisconnect c9state).jobs ≠ some (mkJob 31 false 2 "printing") := by
  have h := claim_C9 c9state 200 (mkJob 31 false 2 "printing") rfl
  exact ⟨h.1, h.2.1, h.2.2.2.2.2.1⟩

/-- A configured friendship token used in concrete scenarios. -/
def tok0 : TokenData :=
  { token := "sekrit", label := some "friend", name := some "Friend"
    message := some "hey" }

/-- A concrete server configuration with the default limits. -/
def cfg0 : ServerConfig :=
  { friendship_tokens := [tok0], printer_auth_token := "ptok"
    queue_max_size := 1000, send_interval_seconds := 60
    user_cooldown_hours := 1 }

/-- A store holding one queued priority job (submitted earlier). -/
def c4store : List PrintRequest := [mkJob 7 true 10 "queued"]

/-- A store holding only anonymous queued jobs. -/
def c4anon : List PrintRequest :=
  [mkJob 1 false 1 "queued", mkJob 2 false 2 "queued"]

/-- A store holding one priority job from IP 203.0.113.7 at time 0. -/
def c8store : List PrintRequest := [mkJob 9 true 0 "queued"]

/-- The columns the `PrintRequest` model of `src/server/models.py` maps. -/
def printRequestColumns : List String :=
  ["id", "type", "message_content", "image_content", "submitter_ip",
   "is_priority", "friendship_token_name", "status", "created_at",
   "printed_at", "error_message"]

/-- The keyword arguments `_process_submit_request` passes to the
`PrintRequest` constructor (`src/server/app.py` lines 281-290). -/
def insertKwargs : List String :=
  ["type", "message_content", "image_content", "submitter_ip",
   "is_priority", "friendship_token_label", "friendship_token_name",
   "status"]

/-- The SQLAlchemy declarative constructor raises `TypeError` exactly when
some keyword argument is not a mapped attribute of the model; with the
staged schema this is the case (`friendship_token_label` is passed but not
mapped), so the insert of `_process_submit_request` always raises and is
answered by the `database_error` handler at `src/server/app.py` line 295. -/
def constructorRaises : Bool :=
  insertKwargs.any (fun k => !(printRequestColumns.contains k))

/-- C4, the code at the failing input: the insert passes the unmapped
`friendship_token_label` keyword, so the constructor raises and the staged
endpoint answers database_error for the valid-priority-credential
submission — it is never accepted and reports no position at all, instead
of the claimed position-0/immediate response. -/
theorem claim_C4 :
    constructorRaises = true ∧
      processSubmit cfg0 (some "hi") none (some "sekrit") "198.51.100.2" 20 8
          false c4store =
        (SubmitResult.rejected "database_error"
          "Failed to process request. Please try again later.", c4store) := by
  exact ⟨by decide, by decide⟩

/-- For a positive remainder that is not a multiple of the divisor, floor
division plus one equals the ceiling of the exact quotient. -/
theorem floor60_add_one_eq_ceil {r : Int} (hnd : ¬ (60 : Int) ∣ r) :
    ⌊(r : ℚ) / 60⌋ + 1 = ⌈(r : ℚ) / 60⌉ := by
  have hne : (60 : ℚ) ≠ 0 := by norm_num
  have hfl : ((⌊(r : ℚ) / 60⌋ : ℤ) : ℚ) ≠ (r : ℚ) / 60 := by
    intro heq
    apply hnd
    rw [eq_div_iff hne] at heq
    refine ⟨⌊(r : ℚ) / 60⌋, ?_⟩
    exact_mod_cast heq.symm.trans (mul_comm _ _)
  have hlt : ((⌊(r : ℚ) / 60⌋ : ℤ) : ℚ) < (r : ℚ) / 60 :=
    lt_of_le_of_ne (Int.floor_le _) hfl
  symm
  rw [Int.ceil_eq_iff]
  constructor
  · push_cast
    linarith
  · push_cast
    have := Int.lt_floor_add_one ((r : ℚ) / 60)
    linarith

/-- For an exact multiple of the divisor, floor and ceiling of the exact
quotient agree. -/
theorem floor60_eq_ceil {r : Int} (hdvd : (60 : Int) ∣ r) :
    ⌊(r : ℚ) / 60⌋ = ⌈(r : ℚ) / 60⌉ := by
  obtain ⟨k, rfl⟩ := hdvd
  have h : ((60 * k : ℤ) : ℚ) / 60 = (k : ℚ) := by
    push_cast
    field_simp
  rw [h, Int.floor_intCast, Int.ceil_intCast]

/-- C8, counterexample: with one hour of cooldown, a last submission at
time 0 and a retry at time 3480, the remaining time is exactly 120 seconds
(a multiple of 60): the code reports 3 minutes while the claimed formula
`ceil(remaining / 60)` gives 2. -/
theorem claim_C8_counterexample :
    check_rate_limit 1 "203.0.113.7" 3480 c8store = (false, some 3) ∧
      (⌈((120 : ℤ) : ℚ) / 60⌉ : ℤ) = 2 ∧ (3 : ℤ) ≠ 2 := by
  refine ⟨?_, by norm_num, by decide⟩
  simp [check_rate_limit, rateLimitCandidates, pickLatest, laterOf, c8store,
    mkJob, List.filter, List.foldl]
  norm_num

/-- C8, amended: a rate-limited rejection reports
`floor(remaining_seconds / 60) + 1` minutes; this equals
`ceil(remaining_seconds / 60)` exactly when the remaining time is not a
multiple of 60 seconds, and exceeds it by one on exact multiples. -/
theorem claim_C8 (cooldown_hours now : Int) (ip : String)
    (jobs : List PrintRequest) (last : PrintRequest) (r : Int)
    (hpick : pickLatest none
      (rateLimitCandidates ip (now - cooldown_hours * 3600) jobs) = some last)
    (hr : r = cooldown_hours * 3600 - (now - last.created_at))
    (hpos : 0 < r) :
    check_rate_limit cooldown_hours ip now jobs =
        (false, some (⌊(r : ℚ) / 60⌋ + 1)) ∧
      (¬ (60 : Int) ∣ r → ⌊(r : ℚ) / 60⌋ + 1 = ⌈(r : ℚ) / 60⌉) ∧
      ((60 : Int) ∣ r → ⌊(r : ℚ) / 60⌋ + 1 = ⌈(r : ℚ) / 60⌉ + 1) := by
  refine ⟨?_, fun h => floor60_add_one_eq_ceil h, fun h => by
    rw [floor60_eq_ceil h]⟩
  subst hr
  simp [check_rate_limit, hpick, hpos]

/-- C8 witness: the amended formula at the concrete 120-second remainder. -/
theorem claim_C8_witness :
    check_rate_limit 1 "203.0.113.7" 3480 c8store =
      (false, some (⌊((120 : ℤ) : ℚ) / 60⌋ + 1)) :=
  (claim_C8 1 3480 "203.0.113.7" c8store (mkJob 9 true 0 "queued") 120
    (by decide) (by decide) (by decide)).1

/-- C7: admission has no side effect on rejection — every rejected
submission (any error, the four admission errors included) leaves the job
table unchanged; an otherwise-valid submission whose credential does not
resolve is rejected with invalid_token (no anonymous fallback) and not
persisted; and every accepted submission appends exactly the one new row. -/
theorem claim_C7 (cfg : ServerConfig) (msg img tok : Option String)
    (ip : String) (now : Int) (new_id : Nat) (insertOk : Bool)
    (jobs : List PrintRequest) :
    (∀ e emsg,
        (processSubmit cfg msg img tok ip now new_id insertOk jobs).fst =
          SubmitResult.rejected e emsg →
        (processSubmit cfg msg img tok ip now new_id insertOk jobs).snd = jobs) ∧
      ((truthy msg || truthy img) = true → truthy tok = true →
        get_friendship_token_by_value cfg.friendship_tokens (tok.getD "") = none →
        (processSubmit cfg msg img tok ip now new_id insertOk jobs).fst =
            SubmitResult.rejected "invalid_token" "Invalid friendship token" ∧
          (processSubmit cfg msg img tok ip now new_id insertOk jobs).snd = jobs) ∧
      (∀ s p w am,
        (processSubmit cfg msg img tok ip now new_id insertOk jobs).fst =
          SubmitResult.accepted s p w am →
        (processSubmit cfg msg img tok ip now new_id insertOk jobs).snd =
          jobs ++ [newPrintRequest msg img ip
            (if truthy tok then
              get_friendship_token_by_value cfg.friendship_tokens (tok.getD "")
            else none) now new_id]) := by
  refine ⟨?_, ?_, ?_⟩
  · intro e emsg h
    simp only [processSubmit] at h ⊢
    split_ifs at h ⊢ <;> first | rfl | simp at h
  · intro hpay htok hnone
    have h1 : (!(truthy msg) && !(truthy img)) = false := by
      rw [← Bool.not_or, hpay]
      rfl
    constructor <;> simp [processSubmit, h1, htok, hnone]
  · intro s p w am h
    simp only [processSubmit] at h ⊢
    split_ifs at h ⊢ <;> first | rfl | simp at h

/-- C7 witness: the spec's scenario — an otherwise-valid submission with
credential "bad-token" absent from the credential store is rejected with
invalid_token and persists nothing. -/
theorem claim_C7_witness :
    (processSubmit cfg0 (some "hi") none (some "bad-token") "198.51.100.2" 20 8
          true c4anon).fst =
        SubmitResult.rejected "invalid_token" "Invalid friendship token" ∧
      (processSubmit cfg0 (some "hi") none (some "bad-token") "198.51.100.2" 20 8
          true c4anon).snd = c4anon :=
  (claim_C7 cfg0 (some "hi") none (some "bad-token") "198.51.100.2" 20 8 true
    c4anon).2.1 (by decide) (by decide) (by decide)

/-- C10: the rate-limit lookup keys on submitter IP over all persisted jobs
regardless of priority — if a priority job from IP X sits in the store and
a credential-less submission from X arrives within the cooldown window of
that job's creation, it is rejected with rate_limited. -/
theorem claim_C10 (cfg : ServerConfig) (msg img : Option String) (ip : String)
    (now : Int) (new_id : Nat) (insertOk : Bool) (jobs : List PrintRequest)
    (j : PrintRequest) (hj : j ∈ jobs) (hip : j.submitter_ip = ip)
    (hpri : j.is_priority = true)
    (hwin : now - j.created_at < cfg.user_cooldown_hours * 3600)
    (hmsg : truthy msg = true) :
    ∃ emsg, processSubmit cfg msg img none ip now new_id insertOk jobs =
      (SubmitResult.rejected "rate_limited" emsg, jobs) := by
  have hmemcand : j ∈ rateLimitCandidates ip
      (now - cfg.user_cooldown_hours * 3600) jobs := by
    unfold rateLimitCandidates
    rw [List.mem_filter]
    refine ⟨hj, ?_⟩
    simp [hip]
    omega
  obtain ⟨r, hr, hrmem⟩ := pickLatest_of_mem hmemcand
  have hrpred := (List.mem_filter.mp hrmem).2
  simp only [Bool.and_eq_true, beq_iff_eq, decide_eq_true_eq] at hrpred
  have hretry : 0 < cfg.user_cooldown_hours * 3600 - (now - r.created_at) := by
    have := hrpred.2
    omega
  have hrl : check_rate_limit cfg.user_cooldown_hours ip now jobs =
      (false, some (⌊((cfg.user_cooldown_hours * 3600 - (now - r.created_at) : ℤ) : ℚ) / 60⌋ + 1)) := by
    simp [check_rate_limit, hr, hretry]
  have h1 : (!(truthy msg) && !(truthy img)) = false := by
    rw [hmsg]
    rfl
  have htokf : truthy none = false := rfl
  refine ⟨"Try again in " ++
    toString (⌊((cfg.user_cooldown_hours * 3600 - (now - r.created_at) : ℤ) : ℚ) / 60⌋ + 1) ++
    " minutes", ?_⟩
  simp [processSubmit, h1, htokf, hrl]

/-- C10 witness: a credential-less submission from 203.0.113.7 at time
3000 is rejected rate_limited because of the priority job persisted from
that IP at time 0. -/
theorem claim_C10_witness :
    ∃ emsg, processSubmit cfg0 (some "hi") none none "203.0.113.7" 3000 8 true
        c8store = (SubmitResult.rejected "rate_limited" emsg, c8store) :=
  claim_C10 cfg0 (some "hi") none "203.0.113.7" 3000 8 true c8store
    (mkJob 9 true 0 "queued") (by decide) rfl rfl (by decide) rfl

end Printomat
